import Mathlib

/-!
Shallow embedding of the validation-pipeline orchestration core of the
repository `Validace_vstupnich_dat_pro_online-oceneni`.

Embedded source files:
* `src/backend/agents/base.py` — `AgentStatus`, `AgentResult`, `BaseAgent.execute`
* `src/backend/config.py` — `DATA_MATRIX`, `get_age_range_key`, `get_score_range_key`
* `src/backend/agents/strategist.py` — `StrategistAgent.run`, `_generate_report`,
  `_fallback_report`
* `src/backend/orchestrator.py` — `PipelineOrchestrator.run_pipeline`

Modelling conventions:
* Python dicts become association lists (`List (String × _)`); `dict.get`
  is `List.lookup`.
* Python values stored in the `details` dict of an agent become the inductive
  `DVal`.  `AgentResult.score` is a Python float that the Strategist
  immediately converts with `int(...)`; it is modelled as the post-cast
  `Option Int`.
* Exceptions become explicit outcome values (`RunOutcome`, `OrchOutcome`,
  `StratOutcome`, `GenOutcome`); a branch of the embedding corresponds to a
  `try/except` branch of the source.
* Wall-clock timestamps are abstract `Nat` ticks passed in by the caller.
-/

namespace Validace

/-- The `AgentStatus` enum from `base.py`: the five-valued agent status enum. -/
inductive AgentStatus where
  | idle
  | processing
  | success
  | fail
  | warn
deriving DecidableEq, Repr

/-- The string value of each `AgentStatus` member (`status.value` in the source). -/
def AgentStatus.value : AgentStatus → String
  | .idle => "idle"
  | .processing => "processing"
  | .success => "success"
  | .fail => "fail"
  | .warn => "warn"

/-- A Python value stored in a `details` dict: None, bool, int, str, list or dict. -/
inductive DVal where
  | vnone
  | vbool (b : Bool)
  | vint (i : Int)
  | vstr (s : String)
  | vlist (xs : List DVal)
  | vdict (xs : List (String × DVal))

/-- Python truthiness of a `DVal` (used by `if inspector.details.get("critical_override")`). -/
def DVal.truthy : DVal → Bool
  | .vnone => false
  | .vbool b => b
  | .vint i => decide (i ≠ 0)
  | .vstr s => decide (s ≠ "")
  | .vlist xs => !xs.isEmpty
  | .vdict xs => !xs.isEmpty

/-- The `AgentResult` record from `base.py`.  `score` is stored post-`int(...)`-cast. -/
structure AgentResult where
  status : AgentStatus := .idle
  category : Option Int := none
  score : Option Int := none
  summary : String := ""
  details : List (String × DVal) := []
  warnings : List String := []
  errors : List String := []

/-- The `agent_results` mapping handed to the Strategist: a name-keyed dict
whose values may be `None` (the source loop guards `if result is None`). -/
abbrev AgentResults := List (String × Option AgentResult)

/-! ## `config.py`: the decision matrix and its bucketing functions -/

/-- The `DATA_MATRIX` table from `config.py`: rows keyed by effective-age range, columns
keyed by AI-score range, cells `(category, match_type)`. -/
def DATA_MATRIX : List (String × List (String × (Int × String))) :=
  [ ("0-5",
      [ ("27-30", (1, "shoda")), ("22-26", (2, "varovani")), ("16-21", (3, "konflikt")),
        ("8-15", (4, "konflikt")), ("0-7", (5, "konflikt")) ]),
    ("6-15",
      [ ("27-30", (1, "varovani")), ("22-26", (2, "shoda")), ("16-21", (3, "varovani")),
        ("8-15", (4, "konflikt")), ("0-7", (5, "konflikt")) ]),
    ("16-30",
      [ ("27-30", (2, "konflikt")), ("22-26", (2, "varovani")), ("16-21", (3, "shoda")),
        ("8-15", (4, "varovani")), ("0-7", (5, "konflikt")) ]),
    ("31-50",
      [ ("27-30", (2, "konflikt")), ("22-26", (3, "varovani")), ("16-21", (3, "varovani")),
        ("8-15", (4, "shoda")), ("0-7", (5, "shoda")) ]),
    ("51+",
      [ ("27-30", (3, "konflikt")), ("22-26", (3, "konflikt")), ("16-21", (3, "varovani")),
        ("8-15", (4, "shoda")), ("0-7", (5, "shoda")) ]) ]

/-- The function `get_age_range_key` from `config.py`. -/
def get_age_range_key (effective_age : Int) : String :=
  if effective_age ≤ 5 then "0-5"
  else if effective_age ≤ 15 then "6-15"
  else if effective_age ≤ 30 then "16-30"
  else if effective_age ≤ 50 then "31-50"
  else "51+"

/-- The function `get_score_range_key` from `config.py`. -/
def get_score_range_key (score : Int) : String :=
  if score ≤ 7 then "0-7"
  else if score ≤ 15 then "8-15"
  else if score ≤ 21 then "16-21"
  else if score ≤ 26 then "22-26"
  else "27-30"

/-- The guarded matrix access of the Strategist:
`if age_key in DATA_MATRIX and score_key in DATA_MATRIX[age_key]` followed by
the cell read; `none` models the false branch of the guard. -/
def matrixLookup (age_key score_key : String) : Option (Int × String) :=
  match DATA_MATRIX.lookup age_key with
  | some row => row.lookup score_key
  | none => none

/-! ## `strategist.py`: `StrategistAgent.run` -/

/-- Models `agent_results.get(name)`, collapsed over the source `if result is None`
guard: a key that is absent and a key stored as `None` behave identically
everywhere the Strategist dereferences an agent. -/
def getAgent (ars : AgentResults) (name : String) : Option AgentResult :=
  match ars.lookup name with
  | some (some r) => some r
  | _ => none

/-- The `(name, result)` pairs the aggregation loop actually processes
(skipping `None` results and the key `"Strategist"`). -/
def includedResults (ars : AgentResults) : List (String × AgentResult) :=
  ars.filterMap fun p =>
    match p.2 with
    | none => none
    | some r => if p.1 = "Strategist" then none else some (p.1, r)

/-- The running loop sum `total_warns += len(result.warnings)`. -/
def totalWarnsBase (ars : AgentResults) : Nat :=
  (includedResults ars).foldl (fun acc p => acc + p.2.warnings.length) 0

/-- The loop-level `has_fail` flag before the Inspector critical override. -/
def hasFailBase (ars : AgentResults) : Bool :=
  (includedResults ars).any fun p => p.2.status == AgentStatus.fail

/-- The `all_warnings` accumulator of the loop. -/
def allWarningsOf (ars : AgentResults) : List String :=
  (includedResults ars).foldl (fun acc p => acc ++ p.2.warnings) []

/-- The `all_errors` accumulator of the loop. -/
def allErrorsOf (ars : AgentResults) : List String :=
  (includedResults ars).foldl (fun acc p => acc ++ p.2.errors) []

/-- One entry of the `agent_summaries` dict built by the aggregation loop. -/
structure AgentSummary where
  status : String
  summary : String
  warnings : List String
  errors : List String
  details : List (String × DVal)
  score : Option Int
  category : Option Int

/-- The `agent_summaries` dict (insertion order = loop order). -/
def summariesOf (ars : AgentResults) : List (String × AgentSummary) :=
  (includedResults ars).map fun p =>
    (p.1,
      { status := p.2.status.value, summary := p.2.summary, warnings := p.2.warnings,
        errors := p.2.errors, details := p.2.details, score := p.2.score,
        category := p.2.category })

/-- The flag `guardian_fail = guardian and guardian.status == AgentStatus.FAIL`. -/
def guardianFail (ars : AgentResults) : Bool :=
  match getAgent ars "Guardian" with
  | some g => g.status == AgentStatus.fail
  | none => false

/-- The `effective_age` read from the Historian details.  The source writes an
int there (`historian.py`); a present non-int value would crash the unguarded
bucketing call and is outside the embedded behaviour. -/
def effectiveAge (ars : AgentResults) : Option Int :=
  match getAgent ars "Historian" with
  | some h =>
    match h.details.lookup "effective_age" with
    | some (.vint i) => some i
    | _ => none
  | none => none

/-- The value `ai_score = int(inspector.score)` when the Inspector is present with a
non-`None` score (the cast is the identity on the modelled integer score). -/
def aiScore (ars : AgentResults) : Option Int :=
  match getAgent ars "Inspector" with
  | some i => i.score
  | none => none

/-- The `matrix_result` cell: the cell looked up when both axes are available. -/
def matrixResultOf (ars : AgentResults) : Option (Int × String) :=
  match effectiveAge ars, aiScore ars with
  | some a, some s => matrixLookup (get_age_range_key a) (get_score_range_key s)
  | _, _ => none

/-- The `matrix_match_type` component. -/
def matchTypeOf (ars : AgentResults) : Option String :=
  (matrixResultOf ars).map Prod.snd

/-- `age_category` (the category of the matrix cell). -/
def ageCategoryOf (ars : AgentResults) : Option Int :=
  (matrixResultOf ars).map Prod.fst

/-- The extra warning added when `matrix_match_type == "konflikt"`. -/
def conflictEscalation (ars : AgentResults) : Nat :=
  if matchTypeOf ars = some "konflikt" then 1 else 0

/-- The `total_warns` value after the matrix-conflict escalation. -/
def totalWarns (ars : AgentResults) : Nat :=
  totalWarnsBase ars + conflictEscalation ars

/-- The `inspector.details.get("critical_override")` truthiness check. -/
def criticalOverride (ars : AgentResults) : Bool :=
  match getAgent ars "Inspector" with
  | some i =>
    match i.details.lookup "critical_override" with
    | some v => v.truthy
    | none => false
  | none => false

/-- The `final_category` before the Inspector critical override. -/
def finalCategoryPre (ars : AgentResults) : Option Int :=
  match ageCategoryOf ars with
  | some c => some c
  | none =>
    match getAgent ars "Historian" with
    | some h => h.category
    | none => none

/-- The `has_fail` value after the Inspector critical override forces it. -/
def hasFailFinal (ars : AgentResults) : Bool :=
  hasFailBase ars || criticalOverride ars

/-- The `final_category` value after the Inspector critical override forces category 5. -/
def finalCategory (ars : AgentResults) : Option Int :=
  if criticalOverride ars then some 5 else finalCategoryPre ars

/-- The semaphore decision: `(semaphore, semaphore_color)` by the ordered
`if has_fail or guardian_fail or total_warns >= 3 / elif total_warns >= 1`. -/
def semaphoreOf (ars : AgentResults) : String × String :=
  if hasFailFinal ars || guardianFail ars || decide (totalWarns ars ≥ 3) then
    ("VRÁTIT KLIENTOVI", "red")
  else if decide (totalWarns ars ≥ 1) then
    ("SUPERVISED", "orange")
  else
    ("ONLINE", "green")

/-! ## `strategist.py`: report generation and result assembly -/

/-- The outcome of the Gemini narrative generation inside `_generate_report`:
no configured client, a raised exception, or a successful response text. -/
inductive GenOutcome where
  | noClient
  | genError (msg : String)
  | genOk (text : String)

/-- The `_fallback_report` text: verdict line, category line when the category is
truthy (`if category:`), a blank line, then one `name: summary` line per
agent summary, joined by newlines. -/
def fallbackReport (summaries : List (String × AgentSummary)) (semaphore : String)
    (category : Option Int) : String :=
  let lines := ["Verdikt: " ++ semaphore]
  let lines := match category with
    | some c => if c ≠ 0 then lines ++ ["Přiřazená kategorie: " ++ toString c] else lines
    | none => lines
  let lines := lines ++ [""]
  let lines := lines ++ summaries.map fun p => p.1 ++ ": " ++ p.2.summary
  String.intercalate "\n" lines

/-- The `_generate_report` call: the returned report text together with the
`(message, level)` log entries it emits.  `noClient` takes the early
fallback, `genError` logs the failure at `warn` level and falls back,
`genOk t` returns `t.strip()`. -/
def generateReport (go : GenOutcome) (summaries : List (String × AgentSummary))
    (semaphore : String) (category : Option Int) : String × List (String × String) :=
  match go with
  | .noClient => (fallbackReport summaries semaphore category, [])
  | .genError m =>
    (fallbackReport summaries semaphore category,
      [("Generuji závěrečný report...", "thinking"),
       ("Chyba generování reportu: " ++ m, "warn")])
  | .genOk t =>
    (t.trim,
      [("Generuji závěrečný report...", "thinking"), ("Report vygenerován.", "info")])

/-- Encode an optional int as a `details` value. -/
def optIntD : Option Int → DVal
  | none => .vnone
  | some i => .vint i

/-- Serialize one `agent_summaries` entry into the details dict of the Strategist. -/
def AgentSummary.toDVal (s : AgentSummary) : DVal :=
  .vdict
    [ ("status", .vstr s.status), ("summary", .vstr s.summary),
      ("warnings", .vlist (s.warnings.map DVal.vstr)),
      ("errors", .vlist (s.errors.map DVal.vstr)),
      ("details", .vdict s.details), ("score", optIntD s.score),
      ("category", optIntD s.category) ]

/-- The `matrix_result` entry of the Strategist details:
a dict when the matrix lookup succeeded, `None` otherwise. -/
def matrixResultDVal (ars : AgentResults) : DVal :=
  match matrixResultOf ars with
  | some _ =>
    .vdict
      [ ("effective_age", optIntD (effectiveAge ars)), ("ai_score", optIntD (aiScore ars)),
        ("category", optIntD (ageCategoryOf ars)),
        ("match_type", match matchTypeOf ars with | some m => .vstr m | none => .vnone) ]
  | none => .vnone

/-- The pure result of `StrategistAgent.run` (; WebSocket/stdout logging aside):
aggregation loop, Guardian blocker, matrix evaluation with conflict
escalation, Inspector critical override, semaphore decision, report
generation, and assembly of the returned `AgentResult`. -/
def strategistRun (go : GenOutcome) (ars : AgentResults) : AgentResult :=
  let summaries := summariesOf ars
  let sem := semaphoreOf ars
  let fc := finalCategory ars
  let report := (generateReport go summaries sem.1 fc).1
  let status : AgentStatus :=
    if sem.1 = "VRÁTIT KLIENTOVI" then .fail
    else if sem.1 = "SUPERVISED" then .warn
    else .success
  { status := status
    category := fc
    score := none
    summary := report
    details :=
      [ ("semaphore", .vstr sem.1), ("semaphore_color", .vstr sem.2),
        ("final_category", optIntD fc),
        ("total_warnings", .vint (totalWarns ars : Int)),
        ("has_fail", .vbool (hasFailFinal ars)),
        ("human_report", .vstr report),
        ("matrix_result", matrixResultDVal ars),
        ("agent_summaries", .vdict (summaries.map fun p => (p.1, p.2.toDVal))) ]
    warnings := allWarningsOf ars
    errors := allErrorsOf ars }

/-! ## `base.py`: `BaseAgent.execute` -/

/-- A log entry (`AgentLog`): abstract timestamp, message, level. -/
structure AgentLogEntry where
  timestamp : Nat
  message : String
  level : String := "info"
deriving DecidableEq

/-- The mutable per-agent state owned by `BaseAgent`. -/
structure AgentState where
  name : String
  status : AgentStatus := .idle
  logs : List AgentLogEntry := []
  result : Option AgentResult := none
  start_time : Option Nat := none
  end_time : Option Nat := none

/-- The outcome of the agent-specific `run` coroutine: a returned
`AgentResult` or a raised exception carrying a message. -/
inductive RunOutcome where
  | ok (r : AgentResult)
  | raises (msg : String)

/-- The `BaseAgent.execute` driver: reset status/logs/start_time, log the start message,
run the body; on success adopt the returned status, on any exception absorb it
into a synthesized `Fail` result; always record `end_time` and return the
stored result.  `t1` is the start tick, `t2` the tick of the later events. -/
def executeAgent (outcome : RunOutcome) (t1 t2 : Nat) (st : AgentState) :
    AgentState × AgentResult :=
  let st1 : AgentState :=
    { st with
      status := .processing, start_time := some t1,
      logs := [⟨t1, "Agent " ++ st.name ++ " started processing.", "info"⟩] }
  match outcome with
  | .ok r =>
    ({ st1 with
       result := some r, status := r.status,
       logs := st1.logs ++
         [⟨t2, "Agent " ++ st.name ++ " finished with status: " ++ r.status.value, "info"⟩],
       end_time := some t2 }, r)
  | .raises msg =>
    let failRes : AgentResult :=
      { status := .fail, summary := "Agent error: " ++ msg, errors := [msg] }
    ({ st1 with
       status := .fail, result := some failRes,
       logs := st1.logs ++
         [⟨t2, "Agent " ++ st.name ++ " encountered error: " ++ msg, "error"⟩],
       end_time := some t2 }, failRes)

/-! ## `orchestrator.py`: `PipelineOrchestrator.run_pipeline` -/

/-- The settled outcome of one `_run_agent` task as seen by the orchestrator:
either the `AgentResult` returned by `agent.execute` (which already absorbed
any fault inside the agent body), or an exception that escaped `_run_agent`
itself (an orchestration fault, caught by `gather(return_exceptions=True)`
or the per-agent `try/except`). -/
inductive OrchOutcome where
  | ok (r : AgentResult)
  | exc (msg : String)

/-- The wave-1 agent names, in `wave1_names` order. -/
def wave1Names : List String :=
  ["Guardian", "Forensic", "Historian", "Inspector", "DocumentComparator", "CadastralAnalyst"]

/-- The `agent_results` map after wave 1: an entry per wave-1 agent whose task
settled with a result; an agent whose task raised gets no entry
(the loop `continue`s after recording the failure). -/
def wave1Results (outcome : String → OrchOutcome) : AgentResults :=
  wave1Names.filterMap fun n =>
    match outcome n with
    | .ok r => some (n, some r)
    | .exc _ => none

/-- The `agent_results` map after the GeoValidator wave (same skip-on-exception). -/
def afterGeo (outcome : String → OrchOutcome) : AgentResults :=
  wave1Results outcome ++
    (match outcome "GeoValidator" with
     | .ok r => [("GeoValidator", some r)]
     | .exc _ => [])

/-- How the Strategist stage settles: its `run` completes (with a narrative
outcome `go`), its `run` raises and `execute` absorbs the fault, or a fault
escapes `execute` and the orchestrator-level `try/except` synthesizes the
`UNKNOWN`-semaphore result. -/
inductive StratOutcome where
  | runs (go : GenOutcome)
  | runRaises (msg : String)
  | orchFault (msg : String)

/-- The `strategist_result` as stored into `agent_results["Strategist"]`. -/
def strategistResult (so : StratOutcome) (ars : AgentResults) : AgentResult :=
  match so with
  | .runs go => strategistRun go ars
  | .runRaises m => { status := .fail, summary := "Agent error: " ++ m, errors := [m] }
  | .orchFault m =>
    { status := .fail, summary := "Strategist selhal: " ++ m, errors := [m],
      details := [("semaphore", .vstr "UNKNOWN"), ("semaphore_color", .vstr "gray")] }

/-- The claim-relevant fields of the `final_result` dict returned by
`run_pipeline` (ids and wall-clock totals are runtime-ambient and omitted). -/
structure PipelineFinal where
  semaphore : DVal
  semaphore_color : DVal
  final_category : Option Int

/-- Final reduction of `run_pipeline`: build `agent_results` through the
waves, settle the Strategist, and read the semaphore fields with
`details.get(key, default)`. -/
def runPipeline (outcome : String → OrchOutcome) (so : StratOutcome) : PipelineFinal :=
  let ars := afterGeo outcome
  let sr := strategistResult so ars
  { semaphore := (sr.details.lookup "semaphore").getD (.vstr "UNKNOWN")
    semaphore_color := (sr.details.lookup "semaphore_color").getD (.vstr "gray")
    final_category := sr.category }

/-! ## Concrete fixtures used by witness theorems -/

/-- An agent result that only fails. -/
def failOnlyResult : AgentResult := { status := .fail }

/-- A result set whose Guardian failed and nothing else happened. -/
def wGuardianArs : AgentResults := [("Guardian", some failOnlyResult)]

/-- An Inspector result carrying the critical-override flag. -/
def wInspectorCrit : AgentResult :=
  { status := .success, details := [("critical_override", .vbool true)] }

/-- A result set with only the critical-override Inspector. -/
def wInspectorArs : AgentResults := [("Inspector", some wInspectorCrit)]

/-- A Historian result with effective age 0. -/
def wHistorianAge0 : AgentResult :=
  { status := .success, details := [("effective_age", .vint 0)] }

/-- An Inspector result with the given condition score. -/
def wInspectorScore (s : Int) : AgentResult := { status := .success, score := some s }

/-- Age 0 with score 0: matrix cell `("0-5", "0-7") = (5, "konflikt")`. -/
def wConflictArs : AgentResults :=
  [("Historian", some wHistorianAge0), ("Inspector", some (wInspectorScore 0))]

/-- Age 0 with score 28: matrix cell `("0-5", "27-30") = (1, "shoda")`. -/
def wMatchArs : AgentResults :=
  [("Historian", some wHistorianAge0), ("Inspector", some (wInspectorScore 28))]

/-- Every orchestrated agent settles with a plain `Fail` result. -/
def worstOutcome : String → OrchOutcome := fun _ => .ok failOnlyResult

/-! ## Helper lemmas about the returned Strategist details -/

theorem lookupSemaphore (go : GenOutcome) (ars : AgentResults) :
    (strategistRun go ars).details.lookup "semaphore" = some (.vstr (semaphoreOf ars).1) := rfl

theorem lookupSemaphoreColor (go : GenOutcome) (ars : AgentResults) :
    (strategistRun go ars).details.lookup "semaphore_color" =
      some (.vstr (semaphoreOf ars).2) := rfl

theorem lookupFinalCategory (go : GenOutcome) (ars : AgentResults) :
    (strategistRun go ars).details.lookup "final_category" =
      some (optIntD (finalCategory ars)) := rfl

theorem lookupTotalWarnings (go : GenOutcome) (ars : AgentResults) :
    (strategistRun go ars).details.lookup "total_warnings" =
      some (.vint (totalWarns ars : Int)) := rfl

theorem lookupHasFail (go : GenOutcome) (ars : AgentResults) :
    (strategistRun go ars).details.lookup "has_fail" =
      some (.vbool (hasFailFinal ars)) := rfl

theorem strategistCategoryEq (go : GenOutcome) (ars : AgentResults) :
    (strategistRun go ars).category = finalCategory ars := rfl

/-- The semaphore string is always one of the three verdict values. -/
theorem semaphoreCases (ars : AgentResults) :
    (semaphoreOf ars).1 = "VRÁTIT KLIENTOVI" ∨ (semaphoreOf ars).1 = "SUPERVISED" ∨
      (semaphoreOf ars).1 = "ONLINE" := by
  unfold semaphoreOf
  split_ifs <;> simp

/-! ## Claim theorems -/

/-- C5: `BaseAgent.execute` absorbs any exception raised by the
agent-specific `run`: it returns and stores a `Fail` result with summary
`"Agent error: <message>"` and errors `[<message>]`, sets the agent status to
`Fail`, logs the error at level `"error"`, records `end_time`, and — because
this holds for every prior state `st` — does so on every repeated call, each
call resetting the logs and recording fresh start/end ticks; exceptions are
modelled as `RunOutcome.raises` values, and `executeAgent` is a total
function on them, so no exception escapes. -/
theorem C5_execute_absorbs_failure (st : AgentState) (msg : String) (t1 t2 : Nat) :
    (executeAgent (.raises msg) t1 t2 st).2.status = .fail ∧
    (executeAgent (.raises msg) t1 t2 st).2.summary = "Agent error: " ++ msg ∧
    (executeAgent (.raises msg) t1 t2 st).2.errors = [msg] ∧
    (executeAgent (.raises msg) t1 t2 st).2.errors ≠ [] ∧
    (executeAgent (.raises msg) t1 t2 st).1.status = .fail ∧
    (executeAgent (.raises msg) t1 t2 st).1.result =
      some (executeAgent (.raises msg) t1 t2 st).2 ∧
    (executeAgent (.raises msg) t1 t2 st).1.start_time = some t1 ∧
    (executeAgent (.raises msg) t1 t2 st).1.end_time = some t2 ∧
    (executeAgent (.raises msg) t1 t2 st).1.logs =
      [⟨t1, "Agent " ++ st.name ++ " started processing.", "info"⟩,
       ⟨t2, "Agent " ++ st.name ++ " encountered error: " ++ msg, "error"⟩] ∧
    ∃ e ∈ (executeAgent (.raises msg) t1 t2 st).1.logs, e.level = "error" := by
  refine ⟨rfl, rfl, rfl, List.cons_ne_nil msg [], rfl, rfl, rfl, rfl, rfl, ?_⟩
  exact ⟨⟨t2, "Agent " ++ st.name ++ " encountered error: " ++ msg, "error"⟩,
    List.Mem.tail _ (List.Mem.head _), rfl⟩

/-- C6: the bucketing functions are total on the integers: every effective
age maps to one of the five row keys, every score to one of the five column
keys, and the guarded matrix access always finds a cell, so the Strategist
membership guard never takes its false branch (and, being a pure function of
its arguments, the lookup returns the same cell for the same inputs). -/
theorem C6_bucketing_total (a s : Int) :
    get_age_range_key a ∈ ["0-5", "6-15", "16-30", "31-50", "51+"] ∧
    get_score_range_key s ∈ ["0-7", "8-15", "16-21", "22-26", "27-30"] ∧
    (matrixLookup (get_age_range_key a) (get_score_range_key s)).isSome = true := by
  refine ⟨?_, ?_, ?_⟩
  · unfold get_age_range_key; split_ifs <;> simp
  · unfold get_score_range_key; split_ifs <;> simp
  · unfold get_age_range_key get_score_range_key; split_ifs <;> rfl

/-- C9: if the Strategist `execute` raises at the orchestration boundary
(`orchFault`), or the Strategist result carries no `"semaphore"` detail
(`runRaises`, where `execute` synthesizes a result with empty details), the
pipeline still returns, carrying semaphore `"UNKNOWN"` and color `"gray"` —
a fourth value outside the three-valued verdict enum. -/
theorem C9_unknown_semaphore (outcome : String → OrchOutcome) (m : String) :
    (runPipeline outcome (.orchFault m)).semaphore = .vstr "UNKNOWN" ∧
    (runPipeline outcome (.orchFault m)).semaphore_color = .vstr "gray" ∧
    (runPipeline outcome (.runRaises m)).semaphore = .vstr "UNKNOWN" ∧
    (runPipeline outcome (.runRaises m)).semaphore_color = .vstr "gray" ∧
    "UNKNOWN" ∉ ["ONLINE", "SUPERVISED", "VRÁTIT KLIENTOVI"] :=
  ⟨rfl, rfl, rfl, rfl, by decide⟩

/-- C2: whenever the Guardian result has status `Fail`, the Strategist
verdict is `VRÁTIT KLIENTOVI` (Return), regardless of all other agent
warnings, scores, statuses and the Decision Matrix outcome (`ars` and the
narrative outcome `go` are arbitrary). -/
theorem C2_guardian_fail_blocks (go : GenOutcome) (ars : AgentResults) (g : AgentResult)
    (hg : getAgent ars "Guardian" = some g) (hf : g.status = AgentStatus.fail) :
    (strategistRun go ars).details.lookup "semaphore" =
      some (.vstr "VRÁTIT KLIENTOVI") := by
  rw [lookupSemaphore]
  have hgf : guardianFail ars = true := by
    simp [guardianFail, hg, hf]
  simp [semaphoreOf, hgf]

/-- Witness for C2 at a concrete input: a lone failed Guardian. -/
theorem C2_guardian_fail_blocks_witness :
    getAgent wGuardianArs "Guardian" = some failOnlyResult ∧
    failOnlyResult.status = AgentStatus.fail ∧
    (strategistRun .noClient wGuardianArs).details.lookup "semaphore" =
      some (.vstr "VRÁTIT KLIENTOVI") :=
  ⟨rfl, rfl, C2_guardian_fail_blocks .noClient wGuardianArs failOnlyResult rfl rfl⟩

/-- C3: a truthy `critical_override` in the Inspector details forces the
final category to 5 and `has_fail` to true, overriding whatever category the
matrix or Historian produced, so the verdict is Return. -/
theorem C3_critical_override_forces_cat5 (go : GenOutcome) (ars : AgentResults)
    (insp : AgentResult) (v : DVal)
    (hi : getAgent ars "Inspector" = some insp)
    (hv : insp.details.lookup "critical_override" = some v)
    (ht : v.truthy = true) :
    (strategistRun go ars).category = some 5 ∧
    (strategistRun go ars).details.lookup "final_category" = some (.vint 5) ∧
    (strategistRun go ars).details.lookup "has_fail" = some (.vbool true) ∧
    (strategistRun go ars).details.lookup "semaphore" =
      some (.vstr "VRÁTIT KLIENTOVI") := by
  have hco : criticalOverride ars = true := by
    simp [criticalOverride, hi, hv, ht]
  have hfc : finalCategory ars = some 5 := by
    simp [finalCategory, hco]
  have hff : hasFailFinal ars = true := by
    simp [hasFailFinal, hco]
  refine ⟨?_, ?_, ?_, ?_⟩
  · rw [strategistCategoryEq, hfc]
  · rw [lookupFinalCategory, hfc]; rfl
  · rw [lookupHasFail, hff]
  · rw [lookupSemaphore]; simp [semaphoreOf, hff]

/-- Witness for C3 at a concrete input: a lone Inspector whose details carry
`critical_override = true`. -/
theorem C3_critical_override_forces_cat5_witness :
    getAgent wInspectorArs "Inspector" = some wInspectorCrit ∧
    wInspectorCrit.details.lookup "critical_override" = some (.vbool true) ∧
    (DVal.vbool true).truthy = true ∧
    ((strategistRun .noClient wInspectorArs).category = some 5 ∧
     (strategistRun .noClient wInspectorArs).details.lookup "final_category" =
       some (.vint 5) ∧
     (strategistRun .noClient wInspectorArs).details.lookup "has_fail" =
       some (.vbool true) ∧
     (strategistRun .noClient wInspectorArs).details.lookup "semaphore" =
       some (.vstr "VRÁTIT KLIENTOVI")) :=
  ⟨rfl, rfl, rfl,
    C3_critical_override_forces_cat5 .noClient wInspectorArs wInspectorCrit
      (.vbool true) rfl rfl rfl⟩

/-- C7: the verdict semaphore, final category, total warnings and has-fail
flag are computed before report generation and are identical for every
narrative outcome; when the Gemini client is unconfigured (`noClient`) or its
call raises (`genError`), the summary is the deterministic fallback report,
and the `genError` path logs the failure at `"warn"` level. -/
theorem C7_narrative_failure_harmless (go1 go2 : GenOutcome) (ars : AgentResults)
    (m : String) :
    (strategistRun go1 ars).status = (strategistRun go2 ars).status ∧
    (strategistRun go1 ars).category = (strategistRun go2 ars).category ∧
    (strategistRun go1 ars).details.lookup "semaphore" =
      (strategistRun go2 ars).details.lookup "semaphore" ∧
    (strategistRun go1 ars).details.lookup "total_warnings" =
      (strategistRun go2 ars).details.lookup "total_warnings" ∧
    (strategistRun go1 ars).details.lookup "has_fail" =
      (strategistRun go2 ars).details.lookup "has_fail" ∧
    (strategistRun .noClient ars).summary =
      fallbackReport (summariesOf ars) (semaphoreOf ars).1 (finalCategory ars) ∧
    (strategistRun (.genError m) ars).summary =
      fallbackReport (summariesOf ars) (semaphoreOf ars).1 (finalCategory ars) ∧
    ("Chyba generování reportu: " ++ m, "warn") ∈
      (generateReport (.genError m) (summariesOf ars) (semaphoreOf ars).1
        (finalCategory ars)).2 :=
  ⟨rfl, rfl, rfl, rfl, rfl, rfl, rfl, List.Mem.tail _ (List.Mem.head _)⟩

/-- C10: the returned Strategist status encodes the verdict exactly:
`Fail` iff the semaphore is `VRÁTIT KLIENTOVI`, `Warn` iff `SUPERVISED`,
`Success` iff `ONLINE`. -/
theorem C10_status_encodes_verdict (go : GenOutcome) (ars : AgentResults) :
    ((strategistRun go ars).status = .fail ↔
      (strategistRun go ars).details.lookup "semaphore" =
        some (.vstr "VRÁTIT KLIENTOVI")) ∧
    ((strategistRun go ars).status = .warn ↔
      (strategistRun go ars).details.lookup "semaphore" = some (.vstr "SUPERVISED")) ∧
    ((strategistRun go ars).status = .success ↔
      (strategistRun go ars).details.lookup "semaphore" = some (.vstr "ONLINE")) := by
  have hs : (strategistRun go ars).status =
      (if (semaphoreOf ars).1 = "VRÁTIT KLIENTOVI" then AgentStatus.fail
       else if (semaphoreOf ars).1 = "SUPERVISED" then AgentStatus.warn
       else AgentStatus.success) := rfl
  rw [hs, lookupSemaphore]
  rcases semaphoreCases ars with h | h | h <;> rw [h] <;> simp

/-- C4: with the per-agent warning sums equal, a run whose matched matrix
cell is `konflikt` reports exactly one more total warning than a run whose
cell is `shoda` or `varovani`; `shoda`/`varovani` cells add nothing. -/
theorem C4_conflict_adds_one_warning (go1 go2 : GenOutcome) (ars1 ars2 : AgentResults)
    (hbase : totalWarnsBase ars1 = totalWarnsBase ars2)
    (h1 : matchTypeOf ars1 = some "konflikt")
    (h2 : matchTypeOf ars2 = some "shoda" ∨ matchTypeOf ars2 = some "varovani") :
    (strategistRun go1 ars1).details.lookup "total_warnings" =
      some (.vint ((totalWarnsBase ars2 : Int) + 1)) ∧
    (strategistRun go2 ars2).details.lookup "total_warnings" =
      some (.vint (totalWarnsBase ars2 : Int)) ∧
    totalWarns ars1 = totalWarns ars2 + 1 := by
  have hc1 : conflictEscalation ars1 = 1 := by
    simp [conflictEscalation, h1]
  have hc2 : conflictEscalation ars2 = 0 := by
    rcases h2 with h | h <;> simp [conflictEscalation, h]
  have ht1 : totalWarns ars1 = totalWarnsBase ars2 + 1 := by
    rw [totalWarns, hc1, hbase]
  have ht2 : totalWarns ars2 = totalWarnsBase ars2 := by
    rw [totalWarns, hc2, Nat.add_zero]
  refine ⟨?_, ?_, ?_⟩
  · rw [lookupTotalWarnings, ht1]; push_cast; rfl
  · rw [lookupTotalWarnings, ht2]
  · rw [ht1, ht2]

/-- Witness for C4 at concrete inputs: effective age 0 with score 0 hits the
`(5, konflikt)` cell; age 0 with score 28 hits the `(1, shoda)` cell. -/
theorem C4_conflict_adds_one_warning_witness :
    totalWarnsBase wConflictArs = totalWarnsBase wMatchArs ∧
    matchTypeOf wConflictArs = some "konflikt" ∧
    (matchTypeOf wMatchArs = some "shoda" ∨ matchTypeOf wMatchArs = some "varovani") ∧
    ((strategistRun .noClient wConflictArs).details.lookup "total_warnings" =
       some (.vint ((totalWarnsBase wMatchArs : Int) + 1)) ∧
     (strategistRun .noClient wMatchArs).details.lookup "total_warnings" =
       some (.vint (totalWarnsBase wMatchArs : Int)) ∧
     totalWarns wConflictArs = totalWarns wMatchArs + 1) :=
  ⟨rfl, rfl, Or.inl rfl,
    C4_conflict_adds_one_warning .noClient .noClient wConflictArs wMatchArs rfl rfl
      (Or.inl rfl)⟩

/-- The running warning total of the aggregation loop equals the sum of the
per-agent warning-list lengths. -/
theorem foldlAddWarnLength (l : List (String × AgentResult)) (a : Nat) :
    l.foldl (fun acc p => acc + p.2.warnings.length) a =
      a + (l.map fun p => p.2.warnings.length).sum := by
  induction l generalizing a with
  | nil => simp
  | cons x xs ih => simp [ih, Nat.add_assoc]

/-- `has_fail` is set exactly when some processed agent result failed. -/
theorem hasFailBaseIff (ars : AgentResults) :
    hasFailBase ars = true ↔
      ∃ p ∈ includedResults ars, p.2.status = AgentStatus.fail := by
  simp [hasFailBase, List.any_eq_true, beq_iff_eq]

/-- C1: the Strategist verdict is produced by the first matching rule in
order — Return when some agent failed or the critical override forced a
failure, or the Guardian failed, or the total warning count (the sum of all
per-agent warning-list lengths plus the matrix conflict escalation) is at
least 3; Supervised when that count is at least 1; Online otherwise. -/
theorem C1_verdict_policy (go : GenOutcome) (ars : AgentResults) :
    (strategistRun go ars).details.lookup "semaphore" = some (.vstr (
      if ((∃ p ∈ includedResults ars, p.2.status = AgentStatus.fail) ∨
            criticalOverride ars = true) ∨ guardianFail ars = true ∨
          ((includedResults ars).map fun p => p.2.warnings.length).sum +
            (if matchTypeOf ars = some "konflikt" then 1 else 0) ≥ 3 then
        "VRÁTIT KLIENTOVI"
      else if ((includedResults ars).map fun p => p.2.warnings.length).sum +
            (if matchTypeOf ars = some "konflikt" then 1 else 0) ≥ 1 then
        "SUPERVISED"
      else "ONLINE")) := by
  rw [lookupSemaphore]
  have hsum : ((includedResults ars).map fun p => p.2.warnings.length).sum =
      totalWarnsBase ars := by
    rw [totalWarnsBase, foldlAddWarnLength, Nat.zero_add]
  rw [hsum]
  have hce : (if matchTypeOf ars = some "konflikt" then 1 else 0) =
      conflictEscalation ars := rfl
  rw [hce]
  have htw : totalWarnsBase ars + conflictEscalation ars = totalWarns ars := rfl
  rw [htw]
  have hb : (hasFailFinal ars || guardianFail ars || decide (totalWarns ars ≥ 3)) =
      true ↔
      ((∃ p ∈ includedResults ars, p.2.status = AgentStatus.fail) ∨
        criticalOverride ars = true) ∨ guardianFail ars = true ∨
        totalWarns ars ≥ 3 := by
    simp [hasFailFinal, Bool.or_eq_true, decide_eq_true_eq, hasFailBaseIff, or_assoc]
  by_cases hR : ((∃ p ∈ includedResults ars, p.2.status = AgentStatus.fail) ∨
      criticalOverride ars = true) ∨ guardianFail ars = true ∨ totalWarns ars ≥ 3
  · rw [if_pos hR]
    have hbt := hb.mpr hR
    simp [semaphoreOf, hbt]
  · rw [if_neg hR]
    have hbf : (hasFailFinal ars || guardianFail ars || decide (totalWarns ars ≥ 3)) =
        false := Bool.eq_false_iff.mpr fun h => hR (hb.mp h)
    by_cases hS : totalWarns ars ≥ 1
    · rw [if_pos hS]
      simp [semaphoreOf, hbf, hS]
    · rw [if_neg hS]
      simp [semaphoreOf, hbf, hS]

/-- When the Guardian wave-1 task settles with a result, that result is
what the later strategist context sees under `"Guardian"`. -/
theorem getAgentAfterGeoGuardian (outcome : String → OrchOutcome) (r : AgentResult)
    (h : outcome "Guardian" = .ok r) :
    getAgent (afterGeo outcome) "Guardian" = some r := by
  simp [afterGeo, wave1Results, wave1Names, List.filterMap_cons, h, getAgent,
    List.lookup]

/-- C8: `run_pipeline` always returns a final result — for every combination
of settled, raising or faulting stages the returned semaphore is one of the
four possible values — and in the worst case where every non-Strategist
agent task settled with a `Fail` result, the returned verdict is Return. -/
theorem C8_pipeline_never_throws (outcomeA outcomeW : String → OrchOutcome)
    (soA : StratOutcome) (go : GenOutcome)
    (hall : ∀ n, n ∈ wave1Names →
      ∃ r, outcomeW n = .ok r ∧ r.status = AgentStatus.fail)
    (hgeo : ∃ r, outcomeW "GeoValidator" = .ok r ∧ r.status = AgentStatus.fail) :
    (runPipeline outcomeA soA).semaphore ∈
      [DVal.vstr "ONLINE", DVal.vstr "SUPERVISED", DVal.vstr "VRÁTIT KLIENTOVI",
       DVal.vstr "UNKNOWN"] ∧
    (runPipeline outcomeW (.runs go)).semaphore = .vstr "VRÁTIT KLIENTOVI" := by
  constructor
  · cases soA with
    | runs g =>
      have hsem : (runPipeline outcomeA (.runs g)).semaphore =
          .vstr (semaphoreOf (afterGeo outcomeA)).1 := rfl
      rw [hsem]
      rcases semaphoreCases (afterGeo outcomeA) with h | h | h <;> rw [h] <;> simp
    | runRaises m => simp [runPipeline, strategistResult]
    | orchFault m => simp [runPipeline, strategistResult, List.lookup]
  · obtain ⟨r, hout, hfail⟩ := hall "Guardian" (by simp [wave1Names])
    have hget := getAgentAfterGeoGuardian outcomeW r hout
    have hgf : guardianFail (afterGeo outcomeW) = true := by
      simp [guardianFail, hget, hfail]
    have hsem : (runPipeline outcomeW (.runs go)).semaphore =
        .vstr (semaphoreOf (afterGeo outcomeW)).1 := rfl
    rw [hsem]
    simp [semaphoreOf, hgf]

/-- Witness for C8 at a concrete input: every agent task settles with a
plain `Fail` result and the Strategist runs without a narrative client. -/
theorem C8_pipeline_never_throws_witness :
    (∀ n, n ∈ wave1Names →
      ∃ r, worstOutcome n = .ok r ∧ r.status = AgentStatus.fail) ∧
    (∃ r, worstOutcome "GeoValidator" = .ok r ∧ r.status = AgentStatus.fail) ∧
    (runPipeline worstOutcome (.runs .noClient)).semaphore ∈
      [DVal.vstr "ONLINE", DVal.vstr "SUPERVISED", DVal.vstr "VRÁTIT KLIENTOVI",
       DVal.vstr "UNKNOWN"] ∧
    (runPipeline worstOutcome (.runs .noClient)).semaphore =
      .vstr "VRÁTIT KLIENTOVI" := by
  have hall : ∀ n, n ∈ wave1Names →
      ∃ r, worstOutcome n = .ok r ∧ r.status = AgentStatus.fail :=
    fun n _ => ⟨failOnlyResult, rfl, rfl⟩
  have hgeo : ∃ r, worstOutcome "GeoValidator" = .ok r ∧
      r.status = AgentStatus.fail := ⟨failOnlyResult, rfl, rfl⟩
  exact ⟨hall, hgeo,
    (C8_pipeline_never_throws worstOutcome worstOutcome (.runs .noClient) .noClient
      hall hgeo).1,
    (C8_pipeline_never_throws worstOutcome worstOutcome (.runs .noClient) .noClient
      hall hgeo).2⟩

end Validace
